import Mathlib

/-!
Shallow embedding of the RPC client in `src/plugin/core/rpc.py` (class `Client`).

Modelling conventions:
- Python dicts become association lists with lookup / insert-or-replace /
  pop semantics (`alistLookup`, `alistInsert`, `alistErase`, `alistPopD`,
  `dictPop`).
- JSON values become the inductive `JValue`; JSON numbers are restricted to
  integers, which covers every id-correlation path the development reasons
  about.
- Python exceptions become the enumeration `PyExc`; a computation that can
  raise returns `Except PyExc _`, and a `try/except` in the source becomes a
  `match` on that result.  `IOError` is an alias of `OSError` in Python 3;
  `json.loads` raises `json.JSONDecodeError`, a subclass of `ValueError`
  (not of `OSError`), which the embedding records as `jsonDecodeError`.
- Callables held by the client (response handlers, error handlers, registry
  handlers, crash / transport-failure handlers) are opaque: they are stored
  as numeric tags, and invoking one is recorded as an `Event` in the output
  trace rather than executed.  Registry handlers dispatched by `handle` may
  raise; their behaviour is an explicit environment argument.
- The transport is abstracted to `Option Unit` (attached or not);
  `transport.send(message)` is recorded as an `Event.sent` carrying the
  payload (the `json.dumps` serialization in `format_request` is not
  modelled, no claim depends on the wire text).
- The condition-variable wait in `execute_request` is sequentialized: the
  `arrival` argument states what the delivery thread inserts into the
  sync-result table for the fresh id before the timeout elapses (`none`
  means the timeout elapses first).
-/

namespace RPC

/-- JSON values (numbers restricted to integers). -/
inductive JValue where
  | null
  | bool (b : Bool)
  | num (n : Int)
  | str (s : String)
  | arr (elems : List JValue)
  | obj (fields : List (String × JValue))

/-- Python exception classes relevant to `rpc.py`.  `ioError` stands for
`IOError` (= `OSError`); none of the other classes is a subclass of it. -/
inductive PyExc where
  | ioError
  | valueError
  | typeError
  | keyError
  | attributeError
deriving DecidableEq

/-- Python's `json.loads` raises `json.JSONDecodeError`, a subclass of `ValueError`. -/
def jsonDecodeError : PyExc := PyExc.valueError

/-- Whether an exception is caught by `except IOError`. -/
def catchesAsIOError : PyExc → Bool
  | PyExc.ioError => true
  | _ => false

/-- Association-list lookup (Python `d[k]` / `k in d` backing). -/
def alistLookup {α β : Type} [DecidableEq α] : List (α × β) → α → Option β
  | [], _ => none
  | (k, v) :: rest, key => if k = key then some v else alistLookup rest key

/-- Association-list insert-or-replace (Python `d[k] = v`). -/
def alistInsert {α β : Type} [DecidableEq α] : List (α × β) → α → β → List (α × β)
  | [], key, val => [(key, val)]
  | (k, v) :: rest, key, val =>
      if k = key then (key, val) :: rest else (k, v) :: alistInsert rest key val

/-- Association-list removal of a key. -/
def alistErase {α β : Type} [DecidableEq α] : List (α × β) → α → List (α × β)
  | [], _ => []
  | (k, v) :: rest, key =>
      if k = key then alistErase rest key else (k, v) :: alistErase rest key

/-- Python `d.pop(k, default)`: remove and return the value, or the default. -/
def alistPopD {α β : Type} [DecidableEq α] (m : List (α × β)) (key : α) (d : β) :
    β × List (α × β) :=
  match alistLookup m key with
  | some v => (v, alistErase m key)
  | none => (d, m)

/-- Python `d.pop(k)` without a default: raises `KeyError` when absent. -/
def dictPop {α β : Type} [DecidableEq α] (m : List (α × β)) (key : α) :
    Except PyExc (β × List (α × β)) :=
  match alistLookup m key with
  | some v => Except.ok (v, alistErase m key)
  | none => Except.error PyExc.keyError

/-- Python `k in payload`.  Modelled for dict payloads; the containment test
on a non-dict either raises `TypeError` (numbers, `None`, booleans) or is a
substring / element test (strings, lists) that no claim exercises — both end
in a log-only path with the client unchanged, so the embedding raises
`TypeError` for every non-dict. -/
def pyContains (payload : JValue) (key : String) : Except PyExc Bool :=
  match payload with
  | JValue.obj fields => Except.ok (alistLookup fields key).isSome
  | _ => Except.error PyExc.typeError

/-- Python `payload[k]` on a decoded JSON value. -/
def pyGetItem (payload : JValue) (key : String) : Except PyExc JValue :=
  match payload with
  | JValue.obj fields =>
      match alistLookup fields key with
      | some v => Except.ok v
      | none => Except.error PyExc.keyError
  | _ => Except.error PyExc.typeError

/-- Python `payload.get(k, d)` restricted to dict payloads; on a non-dict the
attribute access raises, but every call site in `rpc.py` reaches it only with
a dict, so the total default-returning form is used with the guard recorded
at the call sites. -/
def jGetD (payload : JValue) (key : String) (d : JValue) : JValue :=
  match payload with
  | JValue.obj fields => (alistLookup fields key).getD d
  | _ => d

/-- Python `payload.get(k)` with the `.get`-on-non-dict `AttributeError`
made explicit (used for `error.get("message")`, where `error` comes off the
wire and need not be a dict). -/
def pyDictGet (payload : JValue) (key : String) : Except PyExc JValue :=
  match payload with
  | JValue.obj fields => Except.ok ((alistLookup fields key).getD JValue.null)
  | _ => Except.error PyExc.attributeError

/-- Python `int(x)` on a decoded JSON value.  Non-numeric values raise
(`TypeError` / `ValueError`; the distinction is unobservable downstream,
where only `IOError`-vs-not matters). -/
def pyIntOf : JValue → Except PyExc Int
  | JValue.num n => Except.ok n
  | JValue.bool b => Except.ok (if b then 1 else 0)
  | JValue.str s =>
      match s.toInt? with
      | some n => Except.ok n
      | none => Except.error PyExc.valueError
  | _ => Except.error PyExc.typeError

/-- Python `k in payload` at a payload already known to be a dict (total
form, used by `response_handler`, which reaches the membership tests only
after `response["id"]` has succeeded, i.e. on a dict). -/
def hasKeyB (payload : JValue) (key : String) : Bool :=
  match payload with
  | JValue.obj fields => (alistLookup fields key).isSome
  | _ => false

/-- Python truthiness of a decoded JSON value. -/
def pyTruthy : JValue → Bool
  | JValue.null => false
  | JValue.bool b => b
  | JValue.num n => decide (n ≠ 0)
  | JValue.str s => decide (s ≠ "")
  | JValue.arr xs => !xs.isEmpty
  | JValue.obj fs => !fs.isEmpty

/-- The settings flags consumed by `rpc.py` (`log_payloads` is the only one
read on the paths modelled here; it controls logging only). -/
structure Settings where
  log_payloads : Bool

/-- Observable actions of a `Client` operation, in program order.  Invoking
an opaque callable is an event carrying the callable's tag. -/
inductive Event where
  | sent (payload : JValue)
  | debugLog (msg : String)
  | debugVal (v : JValue)
  | exceptionLog (msg : String)
  | responseHandlerInvoked (h : Nat) (arg : JValue)
  | errorHandlerInvoked (h : Nat) (arg : JValue)
  | errorDisplay (msg : JValue)
  | syncNotify (id : Int)
  | registryHandlerInvoked (h : Nat) (params : JValue) (idArg : Option JValue)
  | transportFailHandlerInvoked
  | crashHandlerInvoked

/-- The mutable state of `Client` (`rpc.py`, `Client.__init__`). -/
structure Client where
  transport : Option Unit
  request_id : Int
  response_handlers : List (Int × (Option Nat × Option Nat))
  request_handlers : List (String × Nat)
  notification_handlers : List (String × Nat)
  sync_request_results : List (Int × JValue)
  exiting : Bool
  crash_handler : Option Nat
  transport_fail_handler : Option Nat
  settings : Settings

/-- Constructor `Client.__init__(transport, settings)`: transport attached, id counter at
zero, empty tables, not exiting, no crash / transport-failure handler. -/
def Client.mkInit (settings : Settings) : Client :=
  { transport := some ()
    request_id := 0
    response_handlers := []
    request_handlers := []
    notification_handlers := []
    sync_request_results := []
    exiting := false
    crash_handler := none
    transport_fail_handler := none
    settings := settings }

/-- A `Request` value object (`protocol.py` is not under `src/`). -/
structure Request where
  method : String
  params : Option JValue

/-- Modelled from the spec: `protocol.py` (`Request.to_payload`) is not under
`src/`; the spec's wire shape for a request is
`id` (int), `method` (string), `params` (optional object). -/
def Request.to_payload (r : Request) (id : Int) : JValue :=
  JValue.obj ([("id", JValue.num id), ("method", JValue.str r.method)] ++
    (match r.params with
     | some p => [("params", p)]
     | none => []))

/-- A `Notification` value object (`protocol.py` is not under `src/`). -/
structure Notification where
  method : String
  params : Option JValue

/-- Modelled from the spec: `protocol.py` (`Notification.to_payload`) is not
under `src/`; the spec's wire shape for a notification is `method` (string)
and optional `params`, with no id. -/
def Notification.to_payload (n : Notification) : JValue :=
  JValue.obj ([("method", JValue.str n.method)] ++
    (match n.params with
     | some p => [("params", p)]
     | none => []))

/-- Modelled from the spec: `Notification.exit()` of `protocol.py` is not
under `src/`; `exit()` "sends an exit notification". -/
def Notification.exitNote : Notification :=
  { method := "exit", params := none }

/-- Method `Client.send_payload`: serialize and hand to the transport when one is
attached (`if self.transport:`). -/
def Client.send_payload (c : Client) (payload : JValue) : List Event :=
  match c.transport with
  | some _ => [Event.sent payload]
  | none => []

/-- Method `Client.send_request(request, handler, error_handler=None)`.  Handlers
are opaque tags; the returned event list is the observable trace. -/
def Client.send_request (c : Client) (request : Request) (handler : Nat)
    (error_handler : Option Nat) : Client × List Event :=
  let c1 : Client := { c with request_id := c.request_id + 1 }
  match c1.transport with
  | some _ =>
      let c2 : Client :=
        { c1 with response_handlers :=
            alistInsert c1.response_handlers c1.request_id (some handler, error_handler) }
      (c2, [Event.debugLog (" --> " ++ request.method)] ++
        c2.send_payload (request.to_payload c2.request_id))
  | none =>
      (c1, [Event.debugLog ("unable to send " ++ request.method)] ++
        (match error_handler with
         | some eh => [Event.errorHandlerInvoked eh JValue.null]
         | none => []))

/-- Method `Client.execute_request(request, timeout)`.  The wall-clock wait on the
condition variable is sequentialized: `arrival` is the value the delivery
thread inserts under the fresh id before the timeout elapses (`none` when
the timeout elapses first).  The `try/except KeyError` around the `pop` is
the `match` on `dictPop`; no other statement in the body raises, so the
function is total — the caller never sees an exception. -/
def Client.execute_request (c : Client) (request : Request)
    (arrival : Option JValue) : Client × List Event × Option JValue :=
  match c.transport with
  | none => (c, [Event.debugLog ("unable to send " ++ request.method)], none)
  | some _ =>
      let c1 : Client := { c with request_id := c.request_id + 1 }
      let rid : Int := c1.request_id
      let evs : List Event :=
        [Event.debugLog (" ==> " ++ request.method)] ++
          c1.send_payload (request.to_payload rid)
      let results1 : List (Int × JValue) :=
        match arrival with
        | some v => alistInsert c1.sync_request_results rid v
        | none => c1.sync_request_results
      match dictPop results1 rid with
      | Except.ok (v, rest) =>
          ({ c1 with sync_request_results := rest }, evs, some v)
      | Except.error _ =>
          (c1, evs ++ [Event.debugLog ("timeout on " ++ request.method)], none)

/-- Method `Client.send_notification(notification)`. -/
def Client.send_notification (c : Client) (n : Notification) : List Event :=
  match c.transport with
  | some _ =>
      [Event.debugLog (" --> " ++ n.method)] ++ c.send_payload n.to_payload
  | none => [Event.debugLog ("unable to send " ++ n.method)]

/-- Method `Client.exit()`: set the `exiting` flag, send the exit notification. -/
def Client.exit (c : Client) : Client × List Event :=
  let c1 : Client := { c with exiting := true }
  (c1, c1.send_notification Notification.exitNote)

/-- Method `Client.handle_transport_failure()`: detach the transport, then invoke
the transport-failure handler and the crash handler when registered. -/
def Client.handle_transport_failure (c : Client) : Client × List Event :=
  let c1 : Client := { c with transport := none }
  let evs1 : List Event :=
    match c1.transport_fail_handler with
    | some _ => [Event.transportFailHandlerInvoked]
    | none => []
  let evs2 : List Event :=
    match c1.crash_handler with
    | some _ => [Event.crashHandlerInvoked]
    | none => []
  (c1, [Event.debugLog "transport failed"] ++ evs1 ++ evs2)

/-- Method `Client.on_transport_closed()`: always route a message to the
error-display handler; when not exiting, treat as a failure. -/
def Client.on_transport_closed (c : Client) : Client × List Event :=
  let evs : List Event :=
    [Event.errorDisplay (JValue.str "Communication to server closed, exiting")]
  if c.exiting then (c, evs)
  else
    let r := c.handle_transport_failure
    (r.fst, evs ++ r.snd)

/-- The outcome of a statement block that may raise: the client state and the
events produced before the exception (Python side effects persist across a
raise), and the escaping exception when one occurred. -/
structure Outcome where
  state : Client
  events : List Event
  exc : Option PyExc

/-- Method `Client.response_handler(response)`.  `int(response["id"])` runs first
(an exception there leaves the client untouched); the pending entry is then
popped with default `(None, None)` before the result/error shape is
examined. -/
def Client.response_handler (c : Client) (response : JValue) : Outcome :=
  match (pyGetItem response "id").bind pyIntOf with
  | Except.error e => { state := c, events := [], exc := some e }
  | Except.ok request_id =>
      let logEvs : List Event :=
        if c.settings.log_payloads then [Event.debugVal (jGetD response "result" JValue.null)]
        else []
      let popped := alistPopD c.response_handlers request_id (none, none)
      let c1 : Client := { c with response_handlers := popped.snd }
      let hasResult : Bool := hasKeyB response "result"
      let hasError : Bool := hasKeyB response "error"
      if hasResult && !hasError then
        match popped.fst.fst with
        | some h =>
            { state := c1
              events := logEvs ++
                [Event.responseHandlerInvoked h (jGetD response "result" JValue.null)]
              exc := none }
        | none =>
            let results1 : List (Int × JValue) :=
              alistInsert c1.sync_request_results request_id
                (jGetD response "result" JValue.null)
            { state := { c1 with sync_request_results := results1 }
              events := logEvs ++ [Event.syncNotify request_id]
              exc := none }
      else if !hasResult && hasError then
        let errVal : JValue := jGetD response "error" JValue.null
        let logEvs2 : List Event :=
          logEvs ++ (if c.settings.log_payloads then [Event.debugVal errVal] else [])
        match popped.fst.snd with
        | some eh =>
            { state := c1
              events := logEvs2 ++ [Event.errorHandlerInvoked eh errVal]
              exc := none }
        | none =>
            match pyDictGet errVal "message" with
            | Except.ok msg =>
                { state := c1
                  events := logEvs2 ++ [Event.errorDisplay msg]
                  exc := none }
            | Except.error e =>
                { state := c1, events := logEvs2, exc := some e }
      else
        { state := c1
          events := logEvs ++ [Event.debugLog "invalid response payload"]
          exc := none }

/-- Behaviour of the opaque registry handlers dispatched by `handle`: given
the handler's tag, the params and the optional id argument, either return
normally or raise. -/
def HandlerEnv : Type := Nat → JValue → Option JValue → Except PyExc Unit

/-- Method `Client.handle(typestr, message, handlers, *args)`: look up the handler
by method name; a found handler runs inside `try/except Exception`, so a
raising handler is logged and nothing escapes; an absent handler is logged
as unhandled.  The client state is not touched on any path.  A non-string
method value makes the string concatenation in the debug call raise
`TypeError` before anything else happens (caught by `receive_payload`). -/
def Client.handle (c : Client) (env : HandlerEnv) (typestr : String)
    (message : JValue) (handlers : List (String × Nat)) (idArg : Option JValue) :
    Outcome :=
  match jGetD message "method" (JValue.str "") with
  | JValue.str method =>
      let params : JValue := jGetD message "params" JValue.null
      let logEvs : List Event :=
        if method == "window/logMessage" then []
        else
          [Event.debugLog ("<--  " ++ method)] ++
            (if c.settings.log_payloads && pyTruthy params then [Event.debugVal params] else [])
      match alistLookup handlers method with
      | some h =>
          match env h params idArg with
          | Except.ok _ =>
              { state := c
                events := logEvs ++ [Event.registryHandlerInvoked h params idArg]
                exc := none }
          | Except.error _ =>
              { state := c
                events := logEvs ++
                  [Event.registryHandlerInvoked h params idArg,
                   Event.exceptionLog ("Error handling " ++ typestr ++ " " ++ method)]
                exc := none }
      | none =>
          { state := c
            events := logEvs ++ [Event.debugLog ("Unhandled " ++ typestr ++ " " ++ method)]
            exc := none }
  | _ => { state := c, events := [], exc := some PyExc.typeError }

/-- Body of the second `try` block of `receive_payload`: classify the decoded
payload and dispatch. -/
def Client.receive_body (c : Client) (env : HandlerEnv) (payload : JValue) :
    Outcome :=
  match pyContains payload "method" with
  | Except.error e => { state := c, events := [], exc := some e }
  | Except.ok hasMethod =>
      if hasMethod then
        match pyContains payload "id" with
        | Except.error e => { state := c, events := [], exc := some e }
        | Except.ok hasId =>
            if hasId then
              c.handle env "request" payload c.request_handlers
                (some (jGetD payload "id" JValue.null))
            else
              c.handle env "notification" payload c.notification_handlers none
      else
        match pyContains payload "id" with
        | Except.error e => { state := c, events := [], exc := some e }
        | Except.ok hasId =>
            if hasId then c.response_handler payload
            else
              { state := c
                events := [Event.debugLog "Unknown payload type: "]
                exc := none }

/-- Method `Client.receive_payload(message)`.  `decoded` is the result of
`json.loads(message)`: `Except.error jsonDecodeError` when the string fails
to JSON-decode.  The first `try` catches only `IOError`; the second catches
`Exception`.  An `Except.error` in the result is an exception escaping into
the transport's delivery thread. -/
def Client.receive_payload (c : Client) (env : HandlerEnv)
    (decoded : Except PyExc JValue) : Except PyExc (Client × List Event) :=
  match decoded with
  | Except.error err =>
      if catchesAsIOError err then
        Except.ok (c, [Event.exceptionLog "got a non-JSON payload: "])
      else Except.error err
  | Except.ok payload =>
      let o := c.receive_body env payload
      match o.exc with
      | some _ =>
          Except.ok (o.state, o.events ++ [Event.exceptionLog "Error handling server payload"])
      | none => Except.ok (o.state, o.events)

/-- A caller-side operation that can assign a request id. -/
inductive Op where
  | sendReq (request : Request) (handler : Nat) (error_handler : Option Nat)
  | execReq (request : Request) (arrival : Option JValue)

/-- Run one operation; report the ids this operation assigned, read off the
movement of the id counter. -/
def stepOp (c : Client) (op : Op) : Client × List Int :=
  let c1 : Client :=
    match op with
    | Op.sendReq r h eh => (c.send_request r h eh).fst
    | Op.execReq r arrival => (c.execute_request r arrival).fst
  (c1, if c1.request_id = c.request_id then [] else [c1.request_id])

/-- Run a sequence of operations, collecting the assigned ids in order. -/
def runOps (c : Client) : List Op → Client × List Int
  | [] => (c, [])
  | op :: rest =>
      let r1 := stepOp c op
      let r2 := runOps r1.fst rest
      (r2.fst, r1.snd ++ r2.snd)

/-- Whether an event is a network send. -/
def isSentEvent : Event → Bool
  | Event.sent _ => true
  | _ => false

/-- Whether an event invokes a stored success handler. -/
def isResponseHandlerEvent : Event → Bool
  | Event.responseHandlerInvoked _ _ => true
  | _ => false

/-- Whether an event invokes a stored error handler. -/
def isErrorHandlerEvent : Event → Bool
  | Event.errorHandlerInvoked _ _ => true
  | _ => false

/-- Whether an event routes to the error-display handler. -/
def isErrorDisplayEvent : Event → Bool
  | Event.errorDisplay _ => true
  | _ => false

/-- Whether an event signals the sync-request condition variable. -/
def isSyncNotifyEvent : Event → Bool
  | Event.syncNotify _ => true
  | _ => false

/-- Whether an event invokes a registry (request / notification) handler. -/
def isRegistryInvokeEvent : Event → Bool
  | Event.registryHandlerInvoked _ _ _ => true
  | _ => false

/-- Whether an event is an `exception_log` record. -/
def isExceptionLogEvent : Event → Bool
  | Event.exceptionLog _ => true
  | _ => false

/-- Default settings fixture (payload logging off). -/
def baseSettings : Settings := { log_payloads := false }

/-- Freshly constructed client fixture. -/
def testClient : Client := Client.mkInit baseSettings

/-- Client fixture with no transport attached. -/
def noTransportClient : Client :=
  { Client.mkInit baseSettings with transport := none }

/-- Request fixture. -/
def testRequest : Request := { method := "initialize", params := none }

/-- C1: the claim says a string that fails to JSON-decode makes
`receive_payload` log and return without raising.  In the code, `json.loads`
raises `json.JSONDecodeError` — a subclass of `ValueError`, not of
`IOError`/`OSError` — while the enclosing `try` catches only `IOError`, so
the exception escapes `receive_payload` into the transport's delivery
thread, for every client state and handler environment.  The `except`
block's own log message ("got a non-JSON payload") shows catching decode
failures was the intent, so this is a defect in the code, not in the
claim. -/
theorem C1_decode_failure_escapes (c : Client) (env : HandlerEnv) :
    c.receive_payload env (Except.error jsonDecodeError) =
      Except.error jsonDecodeError := rfl

/-- Client fixture for C3: both failure handlers registered, not exiting. -/
def c3Client : Client :=
  { Client.mkInit baseSettings with
      transport_fail_handler := some 1
      crash_handler := some 2 }

/-- C3: with a transport-failure handler and a crash handler registered, a
transport close signal produces no handler invocation when `exiting` is
true, and fires the transport-failure handler then the crash handler,
each exactly once and in that order, when `exiting` is false. -/
theorem C3_close_fires_handlers_unless_exiting (c : Client) (f g : Nat)
    (hf : c.transport_fail_handler = some f) (hg : c.crash_handler = some g) :
    c.on_transport_closed.snd =
      if c.exiting then
        [Event.errorDisplay (JValue.str "Communication to server closed, exiting")]
      else
        [Event.errorDisplay (JValue.str "Communication to server closed, exiting"),
         Event.debugLog "transport failed",
         Event.transportFailHandlerInvoked,
         Event.crashHandlerInvoked] := by
  unfold Client.on_transport_closed Client.handle_transport_failure
  cases hex : c.exiting <;> simp [hex, hf, hg]

/-- Witness for C3 at the fixture client (not exiting, handlers 1 and 2). -/
theorem C3_close_fires_handlers_unless_exiting_witness :
    c3Client.on_transport_closed.snd =
      if c3Client.exiting then
        [Event.errorDisplay (JValue.str "Communication to server closed, exiting")]
      else
        [Event.errorDisplay (JValue.str "Communication to server closed, exiting"),
         Event.debugLog "transport failed",
         Event.transportFailHandlerInvoked,
         Event.crashHandlerInvoked] :=
  C3_close_fires_handlers_unless_exiting c3Client 1 2 rfl rfl

/-- Client fixture for C8: exiting, transport still attached. -/
def c8Client : Client :=
  { Client.mkInit baseSettings with exiting := true }

/-- C8 counterexample: the claim says `on_transport_closed` detaches the
transport whether or not `exiting` is true.  On a client with `exiting`
true and a transport attached, the transport reference survives the close
signal: the detach statement lives in `handle_transport_failure`, which is
skipped when `exiting` is true. -/
theorem C8_counterexample :
    c8Client.exiting = true ∧
      c8Client.transport = some () ∧
      c8Client.on_transport_closed.fst.transport = some () := by
  refine ⟨rfl, rfl, rfl⟩

/-- C8 amended: `on_transport_closed` detaches the transport reference
exactly when `exiting` is false (inside `handle_transport_failure`); when
`exiting` is true the reference is left attached. -/
theorem C8_detach_only_when_not_exiting (c : Client) :
    c.on_transport_closed.fst.transport =
      if c.exiting then c.transport else none := by
  unfold Client.on_transport_closed Client.handle_transport_failure
  cases hex : c.exiting <;> simp [hex]

/-- C6: when the matching response does not arrive within the timeout
(`arrival = none`) and no stale value sits under the fresh id,
`execute_request` returns `none` to the caller; the only raising statement
in its body, the `pop` of the sync-result table, is wrapped in
`try/except KeyError`, so no exception reaches the caller (the embedding of
`execute_request` is total). -/
theorem C6_timeout_returns_none (c : Client) (r : Request)
    (hstale : alistLookup c.sync_request_results (c.request_id + 1) = none) :
    (c.execute_request r none).snd.snd = none := by
  unfold Client.execute_request
  cases ht : c.transport with
  | none => rfl
  | some u => simp [ht, dictPop, hstale]

/-- Witness for C6 at the fresh client fixture. -/
theorem C6_timeout_returns_none_witness :
    (testClient.execute_request testRequest none).snd.snd = none :=
  C6_timeout_returns_none testClient testRequest rfl

/-- C7: `send_request` with no transport attached performs no send, invokes
the supplied error handler exactly once with `None` (zero times when none
was supplied) within the call itself, and returns; the embedding is a total
function, so nothing is raised. -/
theorem C7_send_request_no_transport (c : Client) (r : Request) (h : Nat)
    (eh : Option Nat) (ht : c.transport = none) :
    (c.send_request r h eh).snd =
        [Event.debugLog ("unable to send " ++ r.method)] ++
          (match eh with
           | some e => [Event.errorHandlerInvoked e JValue.null]
           | none => []) ∧
      (c.send_request r h eh).snd.countP isSentEvent = 0 ∧
      (c.send_request r h eh).snd.countP isErrorHandlerEvent =
        (match eh with
         | some _ => 1
         | none => 0) := by
  unfold Client.send_request
  cases eh <;>
    simp [ht, List.countP_cons, List.countP_nil, isSentEvent, isErrorHandlerEvent]

/-- Witness for C7 at the no-transport fixture with error handler 7. -/
theorem C7_send_request_no_transport_witness :
    (noTransportClient.send_request testRequest 5 (some 7)).snd =
        [Event.debugLog ("unable to send " ++ testRequest.method)] ++
          [Event.errorHandlerInvoked 7 JValue.null] ∧
      (noTransportClient.send_request testRequest 5 (some 7)).snd.countP isSentEvent = 0 ∧
      (noTransportClient.send_request testRequest 5 (some 7)).snd.countP isErrorHandlerEvent = 1 :=
  C7_send_request_no_transport noTransportClient testRequest 5 (some 7) rfl

/-- C10: with no transport attached, `send_request` still advances the id
counter while recording no pending entry and sending nothing, whereas
`execute_request` returns `none` with the client — counter included —
completely unchanged and nothing sent. -/
theorem C10_no_transport_id_consumption (c : Client) (r : Request) (h : Nat)
    (eh : Option Nat) (a : Option JValue) (ht : c.transport = none) :
    ((c.send_request r h eh).fst.request_id = c.request_id + 1 ∧
        (c.send_request r h eh).fst.response_handlers = c.response_handlers ∧
        (c.send_request r h eh).snd.countP isSentEvent = 0) ∧
      c.execute_request r a =
        (c, [Event.debugLog ("unable to send " ++ r.method)], none) := by
  constructor
  · unfold Client.send_request
    cases eh <;>
      simp [ht, List.countP_cons, List.countP_nil, isSentEvent]
  · unfold Client.execute_request
    simp [ht]

/-- Witness for C10 at the no-transport fixture. -/
theorem C10_no_transport_id_consumption_witness :
    ((noTransportClient.send_request testRequest 5 none).fst.request_id =
          noTransportClient.request_id + 1 ∧
        (noTransportClient.send_request testRequest 5 none).fst.response_handlers =
          noTransportClient.response_handlers ∧
        (noTransportClient.send_request testRequest 5 none).snd.countP isSentEvent = 0) ∧
      noTransportClient.execute_request testRequest none =
        (noTransportClient,
         [Event.debugLog ("unable to send " ++ testRequest.method)], none) :=
  C10_no_transport_id_consumption noTransportClient testRequest 5 none none rfl

/-- Client fixture for C4: one pending entry under id 1. -/
def c4Client : Client :=
  { Client.mkInit baseSettings with
      response_handlers := [(1, (some 10, some 11))] }

/-- Response fields carrying both `result` and `error` under id 1. -/
def c4Fields : List (String × JValue) :=
  [("id", JValue.num 1), ("result", JValue.num 0), ("error", JValue.num 0)]

/-- C4 counterexample: the claim says a both-result-and-error payload leaves
all client state — including the pending entry under its id — unchanged.
On a client holding a pending entry under id 1, such a payload is indeed
only logged as invalid, but the pending entry is gone afterwards: the pop
of the pending table precedes the shape validation. -/
theorem C4_counterexample :
    c4Client.response_handlers = [(1, (some 10, some 11))] ∧
      (c4Client.response_handler (JValue.obj c4Fields)).events =
        [Event.debugLog "invalid response payload"] ∧
      (c4Client.response_handler (JValue.obj c4Fields)).state.response_handlers = [] := by
  refine ⟨rfl, rfl, rfl⟩

/-- C4 amended: a response carrying both or neither of `result`/`error` is
logged as invalid and dropped — no success, error, or error-display handler
is invoked, nothing enters the sync-result table, and nothing is raised —
but the pending entry registered under the response's id (when one exists)
is removed: the pop of the pending table precedes the shape validation. -/
theorem C4_invalid_payload_pops_entry (c : Client)
    (fields : List (String × JValue)) (rid : Int)
    (hid : (pyGetItem (JValue.obj fields) "id").bind pyIntOf = Except.ok rid)
    (hshape : (alistLookup fields "result").isSome = (alistLookup fields "error").isSome) :
    (c.response_handler (JValue.obj fields)).state =
        { c with response_handlers := (alistPopD c.response_handlers rid (none, none)).snd } ∧
      (c.response_handler (JValue.obj fields)).events.countP isResponseHandlerEvent = 0 ∧
      (c.response_handler (JValue.obj fields)).events.countP isErrorHandlerEvent = 0 ∧
      (c.response_handler (JValue.obj fields)).events.countP isErrorDisplayEvent = 0 ∧
      (c.response_handler (JValue.obj fields)).events.countP isSyncNotifyEvent = 0 ∧
      Event.debugLog "invalid response payload" ∈ (c.response_handler (JValue.obj fields)).events ∧
      (c.response_handler (JValue.obj fields)).exc = none := by
  unfold Client.response_handler
  rw [hid]
  cases hr : (alistLookup fields "result").isSome <;>
    rw [hr] at hshape <;>
    cases hlog : c.settings.log_payloads <;>
      simp [hasKeyB, hr, ← hshape, hlog, List.countP_cons, List.countP_nil,
        isResponseHandlerEvent, isErrorHandlerEvent, isErrorDisplayEvent,
        isSyncNotifyEvent]

/-- Witness for C4 at the fixture client and a both-result-and-error payload. -/
theorem C4_invalid_payload_pops_entry_witness :
    (c4Client.response_handler (JValue.obj c4Fields)).state =
        { c4Client with
            response_handlers := (alistPopD c4Client.response_handlers 1 (none, none)).snd } ∧
      (c4Client.response_handler (JValue.obj c4Fields)).events.countP isResponseHandlerEvent = 0 ∧
      (c4Client.response_handler (JValue.obj c4Fields)).events.countP isErrorHandlerEvent = 0 ∧
      (c4Client.response_handler (JValue.obj c4Fields)).events.countP isErrorDisplayEvent = 0 ∧
      (c4Client.response_handler (JValue.obj c4Fields)).events.countP isSyncNotifyEvent = 0 ∧
      Event.debugLog "invalid response payload" ∈
        (c4Client.response_handler (JValue.obj c4Fields)).events ∧
      (c4Client.response_handler (JValue.obj c4Fields)).exc = none :=
  C4_invalid_payload_pops_entry c4Client c4Fields 1 rfl rfl

/-- Response fields: a valid result response under the never-issued id 7. -/
def c2Fields : List (String × JValue) :=
  [("id", JValue.num 7), ("result", JValue.num 42)]

/-- Response fields: a valid error response under the never-issued id 8. -/
def c2ErrFields : List (String × JValue) :=
  [("id", JValue.num 8), ("error", JValue.obj [("message", JValue.str "boom")])]

/-- C2 counterexample: the claim says a response whose id matches no pending
entry is dropped with no handler invoked and no state mutated.  On a fresh
client (empty pending table), a result response under id 7 inserts its
result into the sync-result table (state mutated), and an error response
under id 8 is routed to the error-display handler (a handler invoked). -/
theorem C2_counterexample :
    testClient.response_handlers = [] ∧
      (testClient.response_handler (JValue.obj c2Fields)).state.sync_request_results =
        [(7, JValue.num 42)] ∧
      (testClient.response_handler (JValue.obj c2ErrFields)).events =
        [Event.errorDisplay (JValue.str "boom")] := by
  refine ⟨rfl, rfl, rfl⟩

/-- C2 amended: a response whose id matches no pending entry invokes no
success or error handler from the pending table and leaves the table
unchanged, but it is not dropped: a valid result response has its result
inserted into the sync-result table and the condition variable signalled
(waking a synchronous waiter on that id when one exists), and a valid error
response whose error object yields a message is routed to the error-display
handler, leaving the sync-result table unchanged. -/
theorem C2_unmatched_id_not_dropped (c : Client)
    (fields : List (String × JValue)) (rid : Int) (msg : JValue)
    (hid : (pyGetItem (JValue.obj fields) "id").bind pyIntOf = Except.ok rid)
    (hpend : alistLookup c.response_handlers rid = none) :
    (c.response_handler (JValue.obj fields)).events.countP isResponseHandlerEvent = 0 ∧
      (c.response_handler (JValue.obj fields)).events.countP isErrorHandlerEvent = 0 ∧
      (c.response_handler (JValue.obj fields)).state.response_handlers = c.response_handlers ∧
      ((alistLookup fields "result").isSome = true →
        (alistLookup fields "error").isSome = false →
        (c.response_handler (JValue.obj fields)).state.sync_request_results =
            alistInsert c.sync_request_results rid (jGetD (JValue.obj fields) "result" JValue.null) ∧
          (c.response_handler (JValue.obj fields)).events.countP isSyncNotifyEvent = 1) ∧
      ((alistLookup fields "result").isSome = false →
        (alistLookup fields "error").isSome = true →
        pyDictGet (jGetD (JValue.obj fields) "error" JValue.null) "message" = Except.ok msg →
        (c.response_handler (JValue.obj fields)).events.countP isErrorDisplayEvent = 1 ∧
          (c.response_handler (JValue.obj fields)).state.sync_request_results =
            c.sync_request_results) := by
  unfold Client.response_handler
  rw [hid]
  cases hr : (alistLookup fields "result").isSome <;>
    cases he : (alistLookup fields "error").isSome
  case false.false =>
    cases hlog : c.settings.log_payloads <;>
      simp [hasKeyB, hr, he, hlog, alistPopD, hpend, List.countP_cons,
        List.countP_nil, isResponseHandlerEvent, isErrorHandlerEvent,
        isErrorDisplayEvent, isSyncNotifyEvent]
  case false.true =>
    cases hget : pyDictGet (jGetD (JValue.obj fields) "error" JValue.null) "message" with
    | ok m =>
        cases hlog : c.settings.log_payloads <;>
          simp [hasKeyB, hr, he, hlog, hget, alistPopD, hpend, List.countP_cons,
            List.countP_nil, isResponseHandlerEvent, isErrorHandlerEvent,
            isErrorDisplayEvent, isSyncNotifyEvent]
    | error e =>
        cases hlog : c.settings.log_payloads <;>
          simp [hasKeyB, hr, he, hlog, hget, alistPopD, hpend, List.countP_cons,
            List.countP_nil, isResponseHandlerEvent, isErrorHandlerEvent,
            isErrorDisplayEvent, isSyncNotifyEvent]
  case true.false =>
    cases hlog : c.settings.log_payloads <;>
      simp [hasKeyB, hr, he, hlog, alistPopD, hpend, List.countP_cons,
        List.countP_nil, isResponseHandlerEvent, isErrorHandlerEvent,
        isErrorDisplayEvent, isSyncNotifyEvent]
  case true.true =>
    cases hlog : c.settings.log_payloads <;>
      simp [hasKeyB, hr, he, hlog, alistPopD, hpend, List.countP_cons,
        List.countP_nil, isResponseHandlerEvent, isErrorHandlerEvent,
        isErrorDisplayEvent, isSyncNotifyEvent]

/-- Witness for C2 at the fresh client, exercising both the result and the
error shape. -/
theorem C2_unmatched_id_not_dropped_witness :
    ((testClient.response_handler (JValue.obj c2Fields)).state.sync_request_results =
        alistInsert testClient.sync_request_results 7
          (jGetD (JValue.obj c2Fields) "result" JValue.null) ∧
      (testClient.response_handler (JValue.obj c2Fields)).events.countP isSyncNotifyEvent = 1) ∧
      ((testClient.response_handler (JValue.obj c2ErrFields)).events.countP isErrorDisplayEvent = 1 ∧
        (testClient.response_handler (JValue.obj c2ErrFields)).state.sync_request_results =
          testClient.sync_request_results) ∧
      (testClient.response_handler (JValue.obj c2ErrFields)).events.countP isErrorHandlerEvent = 0 :=
  ⟨(C2_unmatched_id_not_dropped testClient c2Fields 7 JValue.null rfl rfl).2.2.2.1 rfl rfl,
   (C2_unmatched_id_not_dropped testClient c2ErrFields 8 (JValue.str "boom") rfl
        rfl).2.2.2.2 rfl rfl rfl,
   (C2_unmatched_id_not_dropped testClient c2ErrFields 8 (JValue.str "boom") rfl rfl).2.1⟩

/-- Environment fixture whose registry handlers always raise. -/
def raisingEnv : HandlerEnv := fun _ _ _ => Except.error PyExc.valueError

/-- Incoming message fixture with method foo and truthy params. -/
def c9Message : JValue :=
  JValue.obj [("method", JValue.str "foo"), ("params", JValue.num 1)]

/-- Incoming request fixture with method foo under id 42. -/
def c9ReqPayload42 : JValue :=
  JValue.obj [("method", JValue.str "foo"), ("id", JValue.num 42)]

/-- Incoming request fixture with method foo under id 43. -/
def c9ReqPayload43 : JValue :=
  JValue.obj [("method", JValue.str "foo"), ("id", JValue.num 43)]

/-- C9 counterexample: the claim says a raising handler's failure is logged
with method and id context.  The log statement is
`"Error handling {typestr} {method}"`: for a request under id 42 whose
handler raises, the only failure log reads "Error handling request foo",
and the identical log is produced for the same request under id 43 — the
id is passed to the handler but never enters the log. -/
theorem C9_counterexample :
    (testClient.handle raisingEnv "request" c9ReqPayload42 [("foo", 3)]
          (some (JValue.num 42))).events.filter isExceptionLogEvent =
        [Event.exceptionLog "Error handling request foo"] ∧
      (testClient.handle raisingEnv "request" c9ReqPayload43 [("foo", 3)]
          (some (JValue.num 43))).events.filter isExceptionLogEvent =
        [Event.exceptionLog "Error handling request foo"] := by
  refine ⟨rfl, rfl⟩

/-- C9 amended: dispatch through `handle` never mutates the client and never
lets an exception escape; when the registered handler for the method raises,
the failure is logged with the message kind and method context (the id is
handed to the handler but not included in the log); when no handler is
registered, the message is logged as unhandled, no handler is invoked, and
processing continues. -/
theorem C9_dispatch_boundary (c : Client) (env : HandlerEnv) (t : String)
    (message : JValue) (handlers : List (String × Nat)) (idArg : Option JValue)
    (m : String) (h : Nat) (e : PyExc)
    (hm : jGetD message "method" (JValue.str "") = JValue.str m) :
    (c.handle env t message handlers idArg).state = c ∧
      (c.handle env t message handlers idArg).exc = none ∧
      (alistLookup handlers m = some h →
        env h (jGetD message "params" JValue.null) idArg = Except.error e →
        (c.handle env t message handlers idArg).events.countP isExceptionLogEvent = 1 ∧
          Event.exceptionLog ("Error handling " ++ t ++ " " ++ m) ∈
            (c.handle env t message handlers idArg).events) ∧
      (alistLookup handlers m = none →
        Event.debugLog ("Unhandled " ++ t ++ " " ++ m) ∈
            (c.handle env t message handlers idArg).events ∧
          (c.handle env t message handlers idArg).events.countP isRegistryInvokeEvent = 0) := by
  unfold Client.handle
  rw [hm]
  cases hl : alistLookup handlers m with
  | none =>
      cases hlm : (m == "window/logMessage") <;>
        cases hpl : c.settings.log_payloads &&
            pyTruthy (jGetD message "params" JValue.null) <;>
          simp [hl, hlm, hpl, List.countP_cons, List.countP_nil,
            isExceptionLogEvent, isRegistryInvokeEvent]
  | some h2 =>
      simp only [hl]
      refine ⟨?_, ?_, ?_, ?_⟩
      · cases henv : env h2 (jGetD message "params" JValue.null) idArg <;>
          simp [henv]
      · cases henv : env h2 (jGetD message "params" JValue.null) idArg <;>
          simp [henv]
      · intro hsome henv2
        obtain rfl : h2 = h := Option.some.inj hsome
        simp only [henv2]
        cases hlm : (m == "window/logMessage") <;>
          cases hpl : (c.settings.log_payloads &&
              pyTruthy (jGetD message "params" JValue.null)) <;>
            simp [hlm, hpl, List.countP_cons, List.countP_nil, isExceptionLogEvent]
      · intro hnone
        exact Option.noConfusion hnone

/-- Witness for C9, applying the theorem once with a registered raising
handler and once with an empty registry. -/
theorem C9_dispatch_boundary_witness :
    (testClient.handle raisingEnv "request" c9Message [("foo", 3)] none).state = testClient ∧
      (testClient.handle raisingEnv "request" c9Message [("foo", 3)] none).events.countP
          isExceptionLogEvent = 1 ∧
      Event.debugLog ("Unhandled " ++ "request" ++ " " ++ "foo") ∈
        (testClient.handle raisingEnv "request" c9Message [] none).events :=
  ⟨(C9_dispatch_boundary testClient raisingEnv "request" c9Message [("foo", 3)] none
      "foo" 3 PyExc.valueError rfl).1,
   ((C9_dispatch_boundary testClient raisingEnv "request" c9Message [("foo", 3)] none
      "foo" 3 PyExc.valueError rfl).2.2.1 rfl rfl).1,
   ((C9_dispatch_boundary testClient raisingEnv "request" c9Message [] none
      "foo" 3 PyExc.valueError rfl).2.2.2 rfl).1⟩

/-- Each `stepOp` either leaves the id counter in place or advances it by
exactly one. -/
theorem stepOp_request_id (c : Client) (op : Op) :
    (stepOp c op).fst.request_id = c.request_id ∨
      (stepOp c op).fst.request_id = c.request_id + 1 := by
  cases op with
  | sendReq r h eh =>
      right
      unfold stepOp Client.send_request
      cases ht : c.transport <;> simp [ht]
  | execReq r a =>
      unfold stepOp Client.execute_request
      cases ht : c.transport with
      | none => left; simp [ht]
      | some u =>
          right
          simp only [ht]
          split <;> simp

/-- Defining equation for the ids a `stepOp` reports. -/
theorem stepOp_snd_eq (c : Client) (op : Op) :
    (stepOp c op).snd =
      if (stepOp c op).fst.request_id = c.request_id then []
      else [(stepOp c op).fst.request_id] := rfl

/-- An id reported by a step is the successor of the counter before the
step, and the counter after the step. -/
theorem stepOp_mem_ids (c : Client) (op : Op) (i : Int)
    (hi : i ∈ (stepOp c op).snd) :
    i = c.request_id + 1 ∧ (stepOp c op).fst.request_id = c.request_id + 1 := by
  rw [stepOp_snd_eq] at hi
  rcases stepOp_request_id c op with hid | hid
  · rw [if_pos hid] at hi
    exact absurd hi (List.not_mem_nil i)
  · rw [if_neg (by omega)] at hi
    rcases List.mem_singleton.mp hi with rfl
    exact ⟨hid, hid⟩

/-- Defining equation: final state of a run over a cons. -/
theorem runOps_cons_fst (c : Client) (op : Op) (rest : List Op) :
    (runOps c (op :: rest)).fst = (runOps (stepOp c op).fst rest).fst := rfl

/-- Defining equation: ids of a run over a cons. -/
theorem runOps_cons_snd (c : Client) (op : Op) (rest : List Op) :
    (runOps c (op :: rest)).snd =
      (stepOp c op).snd ++ (runOps (stepOp c op).fst rest).snd := rfl

/-- Every id a run reports lies strictly above the counter at the start of
the run and at most at the counter at its end; the counter never
decreases. -/
theorem runOps_bounds (ops : List Op) : ∀ c : Client,
    c.request_id ≤ (runOps c ops).fst.request_id ∧
      ∀ i ∈ (runOps c ops).snd,
        c.request_id < i ∧ i ≤ (runOps c ops).fst.request_id := by
  induction ops with
  | nil => intro c; simp [runOps]
  | cons op rest ih =>
      intro c
      obtain ⟨hle, hmem⟩ := ih (stepOp c op).fst
      have hstep := stepOp_request_id c op
      constructor
      · rw [runOps_cons_fst]
        rcases hstep with hid | hid <;> omega
      · intro i hi
        rw [runOps_cons_snd] at hi
        rw [runOps_cons_fst]
        rcases List.mem_append.mp hi with hi1 | hi2
        · obtain ⟨rfl, hid⟩ := stepOp_mem_ids c op i hi1
          omega
        · obtain ⟨hlt, hle2⟩ := hmem i hi2
          rcases hstep with hid | hid <;> omega

/-- The ids reported by any run are strictly increasing in order. -/
theorem runOps_pairwise (ops : List Op) : ∀ c : Client,
    List.Pairwise (· < ·) (runOps c ops).snd := by
  induction ops with
  | nil => intro c; simp [runOps]
  | cons op rest ih =>
      intro c
      rw [runOps_cons_snd, List.pairwise_append]
      refine ⟨?_, ih _, ?_⟩
      · rw [stepOp_snd_eq]
        split <;> simp
      · intro a ha b hb
        obtain ⟨rfl, hid⟩ := stepOp_mem_ids c op a ha
        obtain ⟨hblt, _⟩ := (runOps_bounds rest (stepOp c op).fst).2 b hb
        omega

/-- C5: over any sequence of `send_request` and `execute_request` calls on
one client, the assigned request ids are strictly increasing in assignment
order and contain no duplicate — no id is ever shared or reused. -/
theorem C5_assigned_ids_strictly_increase (c : Client) (ops : List Op) :
    List.Pairwise (· < ·) (runOps c ops).snd ∧ (runOps c ops).snd.Nodup :=
  ⟨runOps_pairwise ops c,
   List.Pairwise.imp (fun hab => ne_of_lt hab) (runOps_pairwise ops c)⟩

end RPC
